import Mathlib

/-!
Verification of the recording-orchestration engine of `multi-chzzk-recorder`.

The definitions below are a shallow embedding of `src/multi_chzzk_recorder.py`
and `src/api/chzzk.py`.  Python dictionaries that are used as insertion-ordered
maps (`record_dict`, `recorder_processes`) are embedded as association lists;
subprocess handles (`subprocess.Popen` objects) are embedded as natural-number
identifiers; all I/O effects (messages over the ZMQ sockets, process signals,
file writes) are reified into an explicit event list.  Paths of execution that
raise an uncaught Python exception are embedded as `Except.error`.
-/

deriving instance DecidableEq for Except

namespace MCR

/-! ## String helpers (`escape_filename`, `truncate_long_name`) -/
/-- The character `{` (written via its code point). -/
def braceL : Char := Char.ofNat 123

/-- The character `}` (written via its code point). -/
def braceR : Char := Char.ofNat 125

/-- The character class of the regex in `escape_filename`:
`[/\\?%*:|\"<>.\n{}]`. -/
def filenameSpecialChars : List Char :=
  ['/', '\\', '?', '%', '*', ':', '|', '\"', '<', '>', '.', '\n', braceL, braceR]

/-- `re.sub(cls, "", s)` for a one-character class: delete every occurrence of a
character of the class, keeping all other characters in order. -/
def reSubDeleteClass (cls : List Char) : List Char → List Char
  | [] => []
  | c :: rest =>
    if c ∈ cls then reSubDeleteClass cls rest else c :: reSubDeleteClass cls rest

/-- `escape_filename` from `multi_chzzk_recorder.py`:
`re.sub(r"[/\\?%*:|\"<>.\n{}]", "", s)`. -/
def escape_filename (s : String) : String :=
  ⟨reSubDeleteClass filenameSpecialChars s.data⟩

/-- `truncate_long_name` from `multi_chzzk_recorder.py`:
`(s[:75] + '..') if len(s) > 77 else s`. -/
def truncate_long_name (s : String) : String :=
  if s.length > 77 then s.take 75 ++ ".." else s

/-! ## Path splitting and collision disambiguation (`get_file_path`) -/
/-- Modelled from the CPython standard library `posixpath.splitext` (called as
`os.path.splitext` by `get_file_path`): split off the extension at the last
dot of the final path component, unless every character of that component
before this dot is itself a dot. -/
def splitext (p : String) : String × String :=
  let l := p.data
  let base := (l.reverse.takeWhile (fun c => c != '/')).reverse
  let after := base.reverse.takeWhile (fun c => c != '.')
  if after.length = base.length then (p, "")
  else
    let extLen := after.length + 1
    let stem := base.take (base.length - extLen)
    if stem.any (fun c => c != '.') then
      (⟨l.take (l.length - extLen)⟩, ⟨l.drop (l.length - extLen)⟩)
    else (p, "")

/-- Python `str.endswith`. -/
def pyEndsWith (s suffix : String) : Bool :=
  suffix.data.isSuffixOf s.data

/-- Python `str.removesuffix`. -/
def pyRemoveSuffix (s suffix : String) : String :=
  if pyEndsWith s suffix then ⟨s.data.take (s.data.length - suffix.data.length)⟩ else s

/-- The string `" (n)"` appended by the disambiguation loop. -/
def natSuffix (n : Nat) : String :=
  " (" ++ Nat.repr n ++ ")"

/-- The `while os.path.exists(rec_file_path)` loop of `get_file_path`, with the
filesystem embedded as the list of existing paths.  The fuel argument bounds
the number of iterations; `disambiguate` supplies fuel `existing.length + 1`,
which is enough because every generated candidate is distinct. -/
def disambiguateAux (existing : List String) : Nat → Nat → String → String
  | 0, _, path => path
  | fuel + 1, uqNum, path =>
    if path ∈ existing then
      let n := uqNum + 1
      let pe := splitext path
      let root :=
        if 1 < n ∧ pyEndsWith pe.1 (natSuffix (n - 1)) = true then
          pyRemoveSuffix pe.1 (natSuffix (n - 1))
        else pe.1
      disambiguateAux existing fuel n (root ++ natSuffix n ++ pe.2)
    else path

/-- Collision disambiguation of `get_file_path` on an already composed path. -/
def disambiguate (existing : List String) (path : String) : String :=
  disambiguateAux existing (existing.length + 1) 0 path

/-- The character list the spec names as filesystem-unsafe (braces excluded). -/
def claimUnsafeChars : List Char :=
  ['/', '\\', '?', '%', '*', ':', '|', '\"', '<', '>', '.', '\n']

/-- A name with no dot and no slash: the shape of the channel-name stems and
extensions the naming template produces. -/
def plainName (s : String) : Bool :=
  s.data.all (fun c => c != '.' && c != '/')

/-! ## Data model: channel registry and process table
`record_dict` and `recorder_processes` are Python dicts keyed by channel id,
embedded as insertion-ordered association lists.  A Python dict assignment
`d[k] = v` updates in place when the key exists and appends otherwise;
`d.pop(k)` / `del d[k]` remove the entry. -/
structure ChzzkChannel where
  channelId : String
  channelName : String
  channelImageUrl : String
  openLive : Bool
deriving DecidableEq

/-- One `recorder_processes` entry.  The dict literal in `__init__` has the
keys `recorder`, `path` and `chat_recorder`; the literal in `add_streamer` has
only `recorder` and `path`.  Every creation site carries the first two keys, so
they are plain optional values here, while the possibly absent `chat_recorder`
key is `none` when absent and `some v` when present with value `v`. -/
structure RecorderProcess where
  recorder : Option Nat
  path : Option String
  chat_recorder : Option (Option Nat)
deriving DecidableEq

/-- The entry built in `__init__` (all three keys, all `None`). -/
def initProcess : RecorderProcess :=
  { recorder := none, path := none, chat_recorder := some none }

/-- The entry built in `add_streamer` (no `chat_recorder` key). -/
def addProcess : RecorderProcess :=
  { recorder := none, path := none, chat_recorder := none }

structure RecState where
  record_dict : List (String × ChzzkChannel)
  recorder_processes : List (String × RecorderProcess)
  recording_count : Int
deriving DecidableEq

def dictGet {α : Type} : List (String × α) → String → Option α
  | [], _ => none
  | (k', v) :: rest, k => if k' = k then some v else dictGet rest k

def dictSet {α : Type} : List (String × α) → String → α → List (String × α)
  | [], k, v => [(k, v)]
  | (k', v') :: rest, k, v =>
    if k' = k then (k', v) :: rest else (k', v') :: dictSet rest k v

def dictErase {α : Type} : List (String × α) → String → List (String × α)
  | [], _ => []
  | (k', v') :: rest, k => if k' = k then rest else (k', v') :: dictErase rest k

/-- `d[k]['f'] = v`: update the value stored under a key that is known to be
present (the callers have already looked it up); keys are unchanged. -/
def dictModify {α : Type} : List (String × α) → String → (α → α) → List (String × α)
  | [], _, _ => []
  | (k', v') :: rest, k, f =>
    if k' = k then (k', f v') :: rest else (k', v') :: dictModify rest k f

def dictKeys {α : Type} (l : List (String × α)) : List String :=
  l.map Prod.fst

/-! ## Effects -/
inductive Chan
  | notify
  | command
deriving DecidableEq

/-- Reified side effects: socket messages, process signals and spawns, the
persisted identifier list, directory creation and the mount command. -/
inductive Event
  | message (ch : Chan) (title body : String)
  | embed (ch : Chan) (title desc : String)
  | alive
  | terminate (h : Nat)
  | waitExit (h : Nat)
  | spawnRecorder (h : Nat)
  | spawnChat (h : Nat)
  | spawnDl (h : Nat) (quality : String)
  | saveList (ids : List String)
  | makeDirs (path : String)
  | runMount (cmd : String)
deriving DecidableEq

structure Config where
  quality : String
  root_path : String
  chat : Bool
  mnt_cmd : String
  fallback : Bool
  file_name_format : String
  cwd : String
  hasSocket : Bool
deriving DecidableEq

/-- `send_message(title, message)` with `socket=None`: sends over the notify
socket only when one exists (`if socket is None and self.socket`). -/
def sendNotifyMessage (cfg : Config) (title body : String) : List Event :=
  if cfg.hasSocket then [Event.message Chan.notify title body] else []

/-- `send_embed(title, description, ...)` with `socket=None` (embed fields are
summarized by title and description). -/
def sendNotifyEmbed (cfg : Config) (title desc : String) : List Event :=
  if cfg.hasSocket then [Event.embed Chan.notify title desc] else []

/-- `send_message(..., socket=self.command_socket)`: command replies exist only
while the bot peer is up, so the socket is passed explicitly and non-`None`. -/
def sendCommandMessage (title body : String) : List Event :=
  [Event.message Chan.command title body]

def sendCommandEmbed (title desc : String) : List Event :=
  [Event.embed Chan.command title desc]

/-- `send_alive()`: heartbeat over the notify socket when one exists. -/
def sendAlive (cfg : Config) : List Event :=
  if cfg.hasSocket then [Event.alive] else []

/-! ## `str.format` with named placeholders (used on the naming template) -/
/-- Scan up to the closing brace of a placeholder: returns the name and the
remaining characters, or `none` when the brace is never closed. -/
def splitAtBrace : List Char → Option (List Char × List Char)
  | [] => none
  | c :: rest =>
    if c = braceR then some ([], rest)
    else
      match splitAtBrace rest with
      | some (k, r) => some (c :: k, r)
      | none => none

/-- Modelled from Python `str.format(**vars)` restricted to plain `{name}`
placeholders (the shape the naming templates use): substitute each
placeholder, `none` on an unclosed brace or a name missing from `vars`
(Python raises `KeyError`/`ValueError` there).  The fuel argument only makes
the recursion structural; `pyFormatStr` passes enough for it never to run
out. -/
def pyFormatAux (vars : List (String × String)) : Nat → List Char → Option (List Char)
  | 0, _ => none
  | _, [] => some []
  | fuel + 1, c :: rest =>
    if c = braceL then
      match splitAtBrace rest with
      | none => none
      | some (key, r2) =>
        match dictGet vars ⟨key⟩, pyFormatAux vars fuel r2 with
        | some v, some tail => some (v.data ++ tail)
        | _, _ => none
    else
      match pyFormatAux vars fuel rest with
      | some tail => some (c :: tail)
      | none => none

def pyFormatStr (tpl : String) (vars : List (String × String)) : Option String :=
  (pyFormatAux vars (tpl.data.length + 1) tpl.data).map (fun l => ⟨l⟩)

/-! ## Path resolution (`get_file_path`) -/
/-- `os.path.join` for the relative components this program joins. -/
def pjoin (a b : String) : String := a ++ "/" ++ b

/-- The filesystem facts `get_file_path` queries. -/
structure PathEnv where
  rootIsDir : Bool
  rootIsDirAfterMount : Bool
  fallbackDirExists : Bool
  fallbackSubDirExists : Bool
  existing : List String
deriving DecidableEq

/-- `get_file_path(username, file_name, is_vod)`: returns the resolved path
(`none` when the caller must skip) together with the emitted effects.  Note
the source's control flow: `file_dir` is set under `ROOT_PATH` only in the
outer `else` (root present at entry).  When the root was missing, the code
falls through to `if not os.path.isdir(ROOT) and FALLBACK:`; even after a
successful mount (the re-check now true) that test is false, so the `else`
sends the `'오류'` storage error and returns `None` — a mount success never
resolves a path. -/
def get_file_path (cfg : Config) (env : PathEnv) (username file_name : String)
    (is_vod : Bool) : Option String × List Event :=
  let sub_dir := if is_vod then "VOD" else username
  if env.rootIsDir then
    (some (disambiguate env.existing (pjoin (pjoin cfg.root_path sub_dir) file_name)), [])
  else
    let mountEvs := if cfg.mnt_cmd ≠ "" then [Event.runMount cfg.mnt_cmd] else []
    let rootAfter := if cfg.mnt_cmd ≠ "" then env.rootIsDirAfterMount else env.rootIsDir
    if rootAfter = false ∧ cfg.fallback = true then
      let dirEvs :=
        (if env.fallbackDirExists then [] else [Event.makeDirs "fallback_recordings"]) ++
        (if env.fallbackSubDirExists then [] else [Event.makeDirs (pjoin "fallback_recordings" sub_dir)])
      let file_dir := pjoin (pjoin cfg.cwd "fallback_recordings") sub_dir
      (some (disambiguate env.existing (pjoin file_dir file_name)),
       mountEvs ++ dirEvs ++
         sendNotifyMessage cfg "경고"
           ("`" ++ username ++ "`의 녹화를 fallback 디렉토리에 저장합니다..\n설정된 녹화 저장 디렉토리가 접근 가능한지 확인하세요."))
    else
      (none,
       mountEvs ++
         sendNotifyMessage cfg "오류"
           "저장 디렉토리가 접근 불가능하므로 녹화를 시작할 수 없습니다.\n저장 디렉토리가 온라인이고 마운트됐는지 확인하세요.")

/-! ## Live-status query (`ChzzkAPI.check_live`, `src/api/chzzk.py`) -/
structure StreamData where
  liveTitle : String
  openDate : String
deriving DecidableEq

/-- Outcome of the HTTP GET inside `check_live`: the request itself may raise
(`requests` timeout or connection error), or returns a response that is 2xx or
not. -/
inductive LiveHttp
  | raises
  | resp (ok2xx : Bool) (statusOpen : Bool) (content : StreamData)
deriving DecidableEq

/-- `ChzzkAPI.check_live`.  The first component is the Python value the caller
later compares against `None`; every non-raising path of the source returns a
genuine bool (`data['content']['status'] == 'OPEN'` or `False` from the
`HTTPError` handler), never `None`.  A raising `requests.get` (the `Timeout`
handler inside the function is dead: the call sits outside the `try` block)
propagates `requests.RequestException` to the caller, embedded as
`Except.error`. -/
def check_live : LiveHttp → Except Unit (Option Bool × Option StreamData)
  | LiveHttp.raises => Except.error ()
  | LiveHttp.resp ok2xx statusOpen content =>
    if ok2xx then Except.ok (some statusOpen, some content)
    else Except.ok (some false, none)

/-! ## Registry mutation (`add_streamer`, `remove_streamer`, startup load) -/
/-- Inputs `add_streamer` reads from the world. -/
structure AddEnv where
  resolvedId : Option String
  channelInfo : Option ChzzkChannel
  dirExists : Bool
deriving DecidableEq

/-- The first lines of `add_streamer`: resolve the target id, by name when
`add_by_name` is set.  When name resolution fails, `get_channel_id` returns
Python `None`, which then flows into the `in`-check and the f-strings as the
text `None`. -/
def resolveId (env : AddEnv) (channel : String) (add_by_name : Bool) : String :=
  if add_by_name then
    match env.resolvedId with
    | some i => i
    | none => "None"
  else channel

/-- `add_streamer(channel, add_by_name)`. -/
def add_streamer (cfg : Config) (s : RecState) (env : AddEnv) (channel : String)
    (add_by_name : Bool) : RecState × List Event :=
  let channel_id := resolveId env channel add_by_name
  if (dictGet s.record_dict channel_id).isSome then
    (s, sendCommandMessage "추가 실패"
      ("채널 ID `" ++ channel_id ++ "` 는 이미 추가되어 있습니다."))
  else
    match env.channelInfo with
    | none =>
      (s, sendCommandMessage "추가 실패"
        ("채널 ID `" ++ channel_id ++ "`는 올바른 치지직 채널이 아닙니다."))
    | some channel_data =>
      let record_dict2 := dictSet s.record_dict channel_id channel_data
      let s2 : RecState :=
        { s with
          record_dict := record_dict2,
          recorder_processes := dictSet s.recorder_processes channel_id addProcess }
      let username := channel_data.channelName
      let file_dir := pjoin cfg.root_path username
      (s2,
       (if env.dirExists then [] else [Event.makeDirs file_dir]) ++
       [Event.saveList (dictKeys record_dict2)] ++
       sendCommandMessage "채널 추가됨"
         ("채널 `" ++ username ++ " (" ++ channel_id ++ ")`을/를 녹화 목록에 추가했습니다."))

/-- `remove_streamer(channel_id)`.  An untracked id gets a failure reply and
changes nothing.  Otherwise the channel entry is popped, a running capture
subprocess is terminated and waited for, the process entry is deleted, the id
list is persisted, and a success reply naming the removed entry is sent.  The
`chat_recorder` handle is never touched.  A missing process entry would be a
`KeyError` (`Except.error`); it cannot happen in reachable states. -/
def remove_streamer (s : RecState) (channel_id : String) :
    Except Unit (RecState × List Event) :=
  match dictGet s.record_dict channel_id with
  | none =>
    Except.ok (s, sendCommandMessage "제거 실패"
      ("채널 ID `" ++ channel_id ++ "`는 추가된 채널이 아닙니다.\n',list' 명령어로 추가된 채널 ID를 확인하세요."))
  | some removed_channel_data =>
    let record_dict2 := dictErase s.record_dict channel_id
    match dictGet s.recorder_processes channel_id with
    | none => Except.error ()
    | some entry =>
      let termEvs :=
        match entry.recorder with
        | some h => [Event.terminate h, Event.waitExit h]
        | none => []
      let count2 :=
        match entry.recorder with
        | some _ => s.recording_count - 1
        | none => s.recording_count
      let s2 : RecState :=
        { record_dict := record_dict2,
          recorder_processes := dictErase s.recorder_processes channel_id,
          recording_count := count2 }
      Except.ok (s2,
        termEvs ++ [Event.saveList (dictKeys record_dict2)] ++
        sendCommandMessage "제거 성공"
          ("채널 `" ++ removed_channel_data.channelName ++ " (" ++ channel_id ++ ")`을/를 녹화 목록에서 제거했습니다."))

/-- Startup load in `__init__`: for each persisted id, `get_channel_info` is
retried until it succeeds (embedded as a total oracle `infos`), the channel is
stored, and its directory is created if missing; afterwards a full process
entry is created for every key of `record_dict`. -/
def init_state (cfg : Config) (ids : List String) (infos : String → ChzzkChannel)
    (dirExists : String → Bool) : RecState × List Event :=
  let record_dict := ids.foldl (fun d cid => dictSet d cid (infos cid)) []
  let evs := ids.foldr
    (fun cid acc =>
      (if dirExists (infos cid).channelName then []
       else [Event.makeDirs (pjoin cfg.root_path (infos cid).channelName)]) ++ acc) []
  ({ record_dict := record_dict,
     recorder_processes := record_dict.map (fun kv => (kv.1, initProcess)),
     recording_count := 0 },
   evs)

/-! ## The poll cycle (`loop`) -/
/-- Inputs one channel's body of the cycle reads from the world. -/
structure ChannelEnv where
  pollResult : Option Int
  fileSize : Option Nat
  stderrText : String
  liveHttp : LiveHttp
  pathEnv : PathEnv
  streamStartedStr : String
  recordStartedStr : String
  recHandle : Nat
  chatHandle : Nat
deriving DecidableEq

/-- One iteration of `for channel_id in self.record_dict` inside `loop`.
Returns the new state, the emitted events and the updated `message_sent`
flag; `Except.error` is an uncaught Python exception (which kills the whole
program: only `requests.RequestException` is caught, around the live-check
part). -/
def loop_channel (cfg : Config) (s : RecState) (cid : String) (env : ChannelEnv)
    (message_sent : Bool) : Except Unit (RecState × List Event × Bool) :=
  match dictGet s.recorder_processes cid with
  | none => Except.error ()
  | some entry =>
    match entry.recorder with
    | some _ =>
      match env.pollResult with
      | none => Except.ok (s, [], message_sent)
      | some _ =>
        match dictGet s.record_dict cid with
        | none => Except.error ()
        | some channel_data =>
          match entry.path with
          | none => Except.error ()
          | some _ =>
            let msgEvs :=
              match env.fileSize with
              | some _ =>
                sendNotifyEmbed cfg "녹화 종료됨"
                  ("채널 `" ++ channel_data.channelName ++ "`의 녹화가 끝났습니다.")
              | none =>
                sendNotifyMessage cfg "녹화 파일 찾을 수 없음"
                  ("`" ++ channel_data.channelName ++ " (" ++ cid ++ ")`의 녹화를 시작할 수 없습니다.\n```" ++
                    env.stderrText ++ "```")
            match entry.chat_recorder with
            | none => Except.error ()
            | some chat =>
              let chatEvs :=
                match chat with
                | some ch => [Event.terminate ch, Event.waitExit ch]
                | none => []
              let entry2 : RecorderProcess :=
                { recorder := none, path := none, chat_recorder := some none }
              let s2 : RecState :=
                { s with
                  recorder_processes := dictModify s.recorder_processes cid (fun _ => entry2),
                  recording_count := s.recording_count - 1 }
              Except.ok (s2, msgEvs ++ chatEvs, true)
    | none =>
      match dictGet s.record_dict cid with
      | none => Except.error ()
      | some channel_data =>
        let username := channel_data.channelName
        match check_live env.liveHttp with
        | Except.error _ => Except.ok (s, [], message_sent)
        | Except.ok (is_streaming, stream_data) =>
          if is_streaming = none then
            Except.ok (s,
              sendNotifyMessage cfg "채널 확인 실패"
                ("채널 " ++ username ++ "의 방송 상태를 확인하던 중 오류가 발생했습니다."),
              true)
          else if is_streaming = some true then
            match stream_data with
            | none => Except.error ()
            | some sd =>
              let vars := [("username", username),
                           ("escaped_title", truncate_long_name (escape_filename sd.liveTitle)),
                           ("stream_started", env.streamStartedStr),
                           ("record_started", env.recordStartedStr)]
              match pyFormatStr cfg.file_name_format vars with
              | none => Except.error ()
              | some file_name =>
                let pr := get_file_path cfg env.pathEnv username file_name false
                match pr.1 with
                | none => Except.ok (s, pr.2, message_sent)
                | some rec_file_path =>
                  let chatField :=
                    if cfg.chat then some (some env.chatHandle) else entry.chat_recorder
                  let chatSpawn :=
                    if cfg.chat then [Event.spawnChat env.chatHandle] else []
                  let entry2 : RecorderProcess :=
                    { recorder := some env.recHandle,
                      path := some rec_file_path,
                      chat_recorder := chatField }
                  let s2 : RecState :=
                    { s with
                      recorder_processes := dictModify s.recorder_processes cid (fun _ => entry2),
                      recording_count := s.recording_count + 1 }
                  Except.ok (s2,
                    pr.2 ++ [Event.spawnRecorder env.recHandle] ++ chatSpawn ++
                      sendNotifyEmbed cfg "녹화 시작됨"
                        ("채널 `" ++ username ++ "`의 녹화를 시작합니다."),
                    true)
          else
            Except.ok (s, [], message_sent)

/-- The fold of `loop_channel` over a key list. -/
def loop_channels (cfg : Config) (env : String → ChannelEnv) :
    List String → RecState → Bool → Except Unit (RecState × List Event × Bool)
  | [], s, ms => Except.ok (s, [], ms)
  | cid :: rest, s, ms =>
    match loop_channel cfg s cid (env cid) ms with
    | Except.error e => Except.error e
    | Except.ok (s2, evs, ms2) =>
      match loop_channels cfg env rest s2 ms2 with
      | Except.error e => Except.error e
      | Except.ok (s3, evs2, ms3) => Except.ok (s3, evs ++ evs2, ms3)

/-- One full poll cycle: every registered channel is processed, then a
heartbeat is sent when the `message_sent` flag is still clear. -/
def loop_cycle (cfg : Config) (s : RecState) (env : String → ChannelEnv) :
    Except Unit (RecState × List Event) :=
  match loop_channels cfg env (dictKeys s.record_dict) s false with
  | Except.error e => Except.error e
  | Except.ok (s2, evs, ms) =>
    Except.ok (s2, evs ++ (if ms then [] else sendAlive cfg))

/-! ## On-demand VOD download (`download_vod`) -/
structure VideoData where
  videoTitle : String
  publishDate : String
  thumbnailImageUrl : String
  duration : Nat
  channelName : String
  liveOpenDate : String
deriving DecidableEq

structure VodEnv where
  videoData : Option VideoData
  pathEnv : PathEnv
  dlHandle : Nat
  streamStartedStr : String
  uploadedStr : String
  downloadStartedStr : String
deriving DecidableEq

/-- `download_vod(url, quality)`: resolves metadata and a destination path,
spawns the download in a background thread and replies immediately.  It never
writes `record_dict`, `recorder_processes` or `recording_count`. -/
def download_vod (cfg : Config) (s : RecState) (env : VodEnv) (url quality : String) :
    Except Unit (RecState × List Event) :=
  match env.videoData with
  | none =>
    Except.ok (s, sendCommandMessage "다운로드 실패"
      ("`" ++ url ++ "`의 정보를 가져오는 데 실패했습니다.\n올바른 URL인지 확인하세요."))
  | some video_data =>
    let quality2 := if quality = "" then cfg.quality else quality
    let username := video_data.channelName
    let vars := [("username", username),
                 ("escaped_title", truncate_long_name (escape_filename video_data.videoTitle)),
                 ("stream_started", env.streamStartedStr),
                 ("uploaded", env.uploadedStr),
                 ("download_started", env.downloadStartedStr)]
    match pyFormatStr cfg.file_name_format vars with
    | none => Except.error ()
    | some file_name =>
      let pr := get_file_path cfg env.pathEnv username file_name true
      Except.ok (s,
        pr.2 ++ [Event.spawnDl env.dlHandle quality2] ++
        sendCommandEmbed "다운로드 시작됨" "VOD 다운로드 중...")

/-- The `on_streamlink_exit` callback run by the background download thread
when the spawned process exits: it only sends a notification (an unreadable
output file raises inside the thread, killing only that thread). -/
def on_streamlink_exit (cfg : Config) (s : RecState) (fileSize : Option Nat)
    (videoTitle url : String) (return_code : Int) :
    Except Unit (RecState × List Event) :=
  if return_code = 0 then
    match fileSize with
    | none => Except.error ()
    | some _ =>
      Except.ok (s, sendCommandEmbed "다운로드 성공"
        ("`" ++ videoTitle ++ "`의 다운로드가 완료되었습니다."))
  else
    Except.ok (s, sendNotifyMessage cfg "다운로드 실패"
      ("`" ++ url ++ "` 의 다운로드 중 오류가 발생했습니다."))

/-! ## Reachable registry states -/
/-- States reachable through startup load and any sequence of completed
operations (`add`, `remove`, poll cycles, on-demand downloads). -/
inductive Reachable (cfg : Config) : RecState → Prop
  | boot (ids : List String) (infos : String → ChzzkChannel) (dirExists : String → Bool) :
      Reachable cfg (init_state cfg ids infos dirExists).1
  | add (s : RecState) (env : AddEnv) (channel : String) (add_by_name : Bool)
      (hs : Reachable cfg s) :
      Reachable cfg (add_streamer cfg s env channel add_by_name).1
  | remove (s s2 : RecState) (cid : String) (evs : List Event) (hs : Reachable cfg s)
      (h : remove_streamer s cid = Except.ok (s2, evs)) : Reachable cfg s2
  | cycle (s s2 : RecState) (env : String → ChannelEnv) (evs : List Event)
      (hs : Reachable cfg s) (h : loop_cycle cfg s env = Except.ok (s2, evs)) :
      Reachable cfg s2
  | dl (s s2 : RecState) (env : VodEnv) (url quality : String) (evs : List Event)
      (hs : Reachable cfg s)
      (h : download_vod cfg s env url quality = Except.ok (s2, evs)) : Reachable cfg s2

/-! ## Sample inputs used to instantiate theorems -/
def sampleChannel : ChzzkChannel :=
  { channelId := "chan1", channelName := "alice", channelImageUrl := "img", openLive := false }

def sampleConfig : Config :=
  { quality := "best", root_path := "/rec", chat := false, mnt_cmd := "",
    fallback := true, file_name_format := "\x7busername\x7d.ts", cwd := "/home",
    hasSocket := true }

def cfgNoFallback : Config := { sampleConfig with fallback := false }

def sampleAddEnv : AddEnv :=
  { resolvedId := none, channelInfo := some sampleChannel, dirExists := true }

def emptyRecState : RecState :=
  { record_dict := [], recorder_processes := [], recording_count := 0 }

def sampleBootState : RecState :=
  (init_state sampleConfig ["chan1"] (fun _ => sampleChannel) (fun _ => true)).1

def sampleStream : StreamData := { liveTitle := "hello", openDate := "2024-01-01 00:00:00" }

def basePathEnv : PathEnv :=
  { rootIsDir := true, rootIsDirAfterMount := true, fallbackDirExists := true,
    fallbackSubDirExists := true, existing := [] }

def liveEnv : ChannelEnv :=
  { pollResult := none, fileSize := some 10, stderrText := "",
    liveHttp := LiveHttp.resp true true sampleStream, pathEnv := basePathEnv,
    streamStartedStr := "ts", recordStartedStr := "tr", recHandle := 5, chatHandle := 6 }

def reapEnv : ChannelEnv := { liveEnv with pollResult := some 0 }

def httpErrEnv : ChannelEnv := { liveEnv with liveHttp := LiveHttp.resp false false sampleStream }

def raisesEnv : ChannelEnv := { liveEnv with liveHttp := LiveHttp.raises }

def offlineEnv : ChannelEnv := { liveEnv with liveHttp := LiveHttp.resp true false sampleStream }

def storageFailEnv : ChannelEnv :=
  { liveEnv with pathEnv := { basePathEnv with rootIsDir := false, rootIsDirAfterMount := false } }

def sampleVodEnv : VodEnv :=
  { videoData := none, pathEnv := basePathEnv, dlHandle := 9, streamStartedStr := "a",
    uploadedStr := "b", downloadStartedStr := "c" }

/-- A state with one channel whose capture (handle 5) and chat capture
(handle 7) are both running. -/
def chatState : RecState :=
  { record_dict := [("c1", sampleChannel)],
    recorder_processes :=
      [("c1", { recorder := some 5, path := some "/rec/alice/a.ts",
                chat_recorder := some (some 7) })],
    recording_count := 1 }

/-- The events `remove_streamer chatState "c1"` actually emits. -/
def chatRemoveEvents : List Event :=
  [Event.terminate 5, Event.waitExit 5, Event.saveList [],
   Event.message Chan.command "제거 성공" "채널 `alice (c1)`을/를 녹화 목록에서 제거했습니다."]

/-- The state `add_streamer` produces from the empty state (no `chat_recorder`
key in the process entry). -/
def addedState : RecState :=
  { record_dict := [("c2", sampleChannel)],
    recorder_processes := [("c2", addProcess)], recording_count := 0 }

/-- `addedState` after a cycle that starts recording: the `chat_recorder` key
is still absent because chat recording is disabled. -/
def recordingNoChatKeyState : RecState :=
  { record_dict := [("c2", sampleChannel)],
    recorder_processes :=
      [("c2", { recorder := some 5, path := some "/rec/alice/alice.ts",
                chat_recorder := none })],
    recording_count := 1 }

/-! ## Claim C7 -/
/-- Classifies the events whose emission sets the cycle's `message_sent` flag:
the recording-ended embed, the missing-file message, the check-failure message
and the recording-started embed.  Storage warnings and errors from
`get_file_path` are notify-channel messages too, but do not set the flag. -/
def countsForHeartbeat : Event → Bool
  | Event.message _ t _ => t == "녹화 파일 찾을 수 없음" || t == "채널 확인 실패"
  | Event.embed _ t _ => t == "녹화 종료됨" || t == "녹화 시작됨"
  | _ => false

/-! ## Basic lemmas about the string helpers -/
theorem reSubDeleteClass_eq_filter (cls : List Char) (l : List Char) :
    reSubDeleteClass cls l = l.filter (fun c => !cls.contains c) := by
  induction l with
  | nil => rfl
  | cons c rest ih =>
    by_cases h : c ∈ cls <;>
      simp [reSubDeleteClass, h, ih, List.filter_cons]

/-- C8: the escaping function strips every character of the spec's unsafe list
(and newline), and truncation maps any string longer than 77 characters to its
first 75 characters followed by the two-dot ellipsis marker, leaving strings of
length at most 77 unchanged. -/
theorem escape_truncate_spec (s : String) :
    ((escape_filename s).data.all (fun c => !claimUnsafeChars.contains c) = true) ∧
    (s.length > 77 → truncate_long_name s = s.take 75 ++ "..") ∧
    (s.length ≤ 77 → truncate_long_name s = s) := by
  have hsub : ∀ c ∈ claimUnsafeChars, c ∈ filenameSpecialChars := by decide
  refine ⟨?_, ?_, ?_⟩
  · rw [List.all_eq_true]
    intro c hc
    rw [escape_filename, reSubDeleteClass_eq_filter] at hc
    simp only [List.mem_filter] at hc
    have h2 := hc.2
    simp only [List.contains, List.elem_eq_mem, Bool.not_eq_true', decide_eq_false_iff_not] at h2 ⊢
    exact fun hm => h2 (hsub c hm)
  · intro h
    simp [truncate_long_name, h]
  · intro h
    have : ¬ s.length > 77 := by omega
    simp [truncate_long_name, this]

/-- Witness for C8 at concrete inputs. -/
theorem escape_truncate_spec_witness :
    truncate_long_name ⟨List.replicate 100 'x'⟩ =
      (⟨List.replicate 100 'x'⟩ : String).take 75 ++ ".." ∧
    truncate_long_name "short" = "short" :=
  ⟨(escape_truncate_spec ⟨List.replicate 100 'x'⟩).2.1 (by decide),
   (escape_truncate_spec "short").2.2 (by decide)⟩

/-- C10: the escaping function also removes the two brace characters, and the
result is exactly the input filtered through the full stripped-character set,
so every character outside that set is preserved in its original order. -/
theorem escape_filename_brace_spec (s : String) :
    ((escape_filename s).data.contains braceL = false) ∧
    ((escape_filename s).data.contains braceR = false) ∧
    (escape_filename s).data = s.data.filter (fun c => !filenameSpecialChars.contains c) := by
  have hfil : (escape_filename s).data = s.data.filter (fun c => !filenameSpecialChars.contains c) := by
    rw [escape_filename, reSubDeleteClass_eq_filter]
  refine ⟨?_, ?_, hfil⟩
  · rw [hfil]
    simp only [List.contains, List.elem_eq_mem, decide_eq_false_iff_not, List.mem_filter]
    rintro ⟨-, h⟩
    exact absurd h (by decide)
  · rw [hfil]
    simp only [List.contains, List.elem_eq_mem, decide_eq_false_iff_not, List.mem_filter]
    rintro ⟨-, h⟩
    exact absurd h (by decide)

/-! ## Lemmas for the disambiguation loop (claim C6) -/
theorem str_data_eq {s t : String} (h : s.data = t.data) : s = t := by
  cases s; cases t; simp_all

theorem takeWhile_append_all {p : Char → Bool} {l1 : List Char} (l2 : List Char)
    (h : ∀ x ∈ l1, p x = true) : (l1 ++ l2).takeWhile p = l1 ++ l2.takeWhile p := by
  induction l1 with
  | nil => simp
  | cons c rest ih =>
    simp only [List.cons_append, List.takeWhile_cons, h c (by simp)]
    rw [ih (fun x hx => h x (by simp [hx]))]
    simp

theorem plainName_mem {b : String} (hb : plainName b = true) :
    ∀ c ∈ b.data, c ≠ '.' ∧ c ≠ '/' := by
  intro c hc
  have := (List.all_eq_true.mp hb) c hc
  simp only [Bool.and_eq_true, bne_iff_ne] at this
  exact this

theorem data_append_dot (b e : String) :
    (b ++ "." ++ e).data = b.data ++ ('.' :: e.data) := by
  simp [String.data_append]

theorem splitext_plain (b e : String) (hb : plainName b = true) (he : plainName e = true)
    (hne : b.data ≠ []) :
    splitext (b ++ "." ++ e) = (b, "." ++ e) := by
  have hbm := plainName_mem hb
  have hem := plainName_mem he
  have hrev : (b.data ++ ('.' :: e.data)).reverse
      = e.data.reverse ++ ('.' :: b.data.reverse) := by
    simp
  have h1 : (b.data ++ ('.' :: e.data)).reverse.takeWhile (fun c => c != '/')
      = (b.data ++ ('.' :: e.data)).reverse := by
    rw [List.takeWhile_eq_self_iff]
    intro x hx
    rw [List.mem_reverse] at hx
    rcases List.mem_append.mp hx with hx | hx
    · exact bne_iff_ne.mpr (hbm x hx).2
    · rcases List.mem_cons.mp hx with rfl | hx
      · decide
      · exact bne_iff_ne.mpr (hem x hx).2
  have h2 : (b.data ++ ('.' :: e.data)).reverse.takeWhile (fun c => c != '.')
      = e.data.reverse := by
    rw [hrev, takeWhile_append_all _ (fun x hx => bne_iff_ne.mpr (hem x (List.mem_reverse.mp hx)).1)]
    simp [List.takeWhile_cons]
  have hlen : (b.data ++ ('.' :: e.data)).length = b.data.length + (e.data.length + 1) := by
    simp
  have hanyb : b.data.any (fun c => c != '.') = true := by
    obtain ⟨c, rest, hcr⟩ := List.exists_cons_of_ne_nil hne
    have hc : c ∈ b.data := by rw [hcr]; exact List.mem_cons_self c rest
    exact List.any_eq_true.mpr ⟨c, hc, bne_iff_ne.mpr (hbm c hc).1⟩
  simp only [splitext, data_append_dot, h1, List.reverse_reverse, h2]
  rw [if_neg (by simp [hlen]; omega)]
  have htk : (b.data ++ ('.' :: e.data)).take
      ((b.data ++ ('.' :: e.data)).length - (e.data.reverse.length + 1)) = b.data := by
    have : (b.data ++ ('.' :: e.data)).length - (e.data.reverse.length + 1) = b.data.length := by
      simp [hlen]
    rw [this, List.take_left]
  have hdr : (b.data ++ ('.' :: e.data)).drop
      ((b.data ++ ('.' :: e.data)).length - (e.data.reverse.length + 1)) = '.' :: e.data := by
    have : (b.data ++ ('.' :: e.data)).length - (e.data.reverse.length + 1) = b.data.length := by
      simp [hlen]
    rw [this, List.drop_left]
  rw [htk]
  rw [if_pos (by simpa using hanyb)]
  rw [hdr]
  rfl

theorem disambiguateAux_mem (existing : List String) {path : String} (fuel uqNum : Nat)
    (h : path ∈ existing) :
    disambiguateAux existing (fuel + 1) uqNum path =
      disambiguateAux existing fuel (uqNum + 1)
        ((if 1 < uqNum + 1 ∧ pyEndsWith (splitext path).1 (natSuffix uqNum) = true then
            pyRemoveSuffix (splitext path).1 (natSuffix uqNum)
          else (splitext path).1) ++ natSuffix (uqNum + 1) ++ (splitext path).2) := by
  simp only [disambiguateAux, if_pos h, Nat.add_sub_cancel]

theorem disambiguateAux_not_mem (existing : List String) {path : String} (fuel uqNum : Nat)
    (h : path ∉ existing) :
    disambiguateAux existing (fuel + 1) uqNum path = path := by
  simp only [disambiguateAux, if_neg h]

theorem plainName_append {a s : String} (ha : plainName a = true) (hs : plainName s = true) :
    plainName (a ++ s) = true := by
  simp only [plainName] at ha hs ⊢
  simp [String.data_append, List.all_append, ha, hs]

theorem pyEndsWith_append (a s : String) : pyEndsWith (a ++ s) s = true := by
  simp only [pyEndsWith, String.data_append]
  rw [List.isSuffixOf_iff_suffix]
  exact List.suffix_append a.data s.data

theorem pyRemoveSuffix_append (a s : String) : pyRemoveSuffix (a ++ s) s = a := by
  rw [pyRemoveSuffix, if_pos (pyEndsWith_append a s)]
  apply str_data_eq
  simp only [String.data_append, List.length_append, Nat.add_sub_cancel]
  exact List.take_left a.data s.data

theorem natSuffix_one : natSuffix 1 = " (1)" := rfl

theorem natSuffix_two : natSuffix 2 = " (2)" := rfl

theorem append_splice_one (b e : String) : b ++ " (1)" ++ ("." ++ e) = b ++ " (1)." ++ e := by
  apply str_data_eq
  have h1 : (" (1)" : String).data = [' ', '(', '1', ')'] := rfl
  have h2 : (" (1)." : String).data = [' ', '(', '1', ')', '.'] := rfl
  have h3 : ("." : String).data = ['.'] := rfl
  simp [String.data_append, h1, h2, h3]

theorem append_splice_two (b e : String) : b ++ " (2)" ++ ("." ++ e) = b ++ " (2)." ++ e := by
  apply str_data_eq
  have h1 : (" (2)" : String).data = [' ', '(', '2', ')'] := rfl
  have h2 : (" (2)." : String).data = [' ', '(', '2', ')', '.'] := rfl
  have h3 : ("." : String).data = ['.'] := rfl
  simp [String.data_append, h1, h2, h3]

theorem append_regroup_one (b e : String) : b ++ " (1)." ++ e = (b ++ " (1)") ++ "." ++ e := by
  apply str_data_eq
  have h1 : (" (1)" : String).data = [' ', '(', '1', ')'] := rfl
  have h2 : (" (1)." : String).data = [' ', '(', '1', ')', '.'] := rfl
  have h3 : ("." : String).data = ['.'] := rfl
  simp [String.data_append, h1, h2, h3]

theorem len_ne_one_base (b e : String) : b ++ " (1)." ++ e ≠ b ++ "." ++ e := by
  intro hcontra
  have hlen := congrArg String.length hcontra
  have h1 : (" (1)." : String).length = 5 := rfl
  have h2 : ("." : String).length = 1 := rfl
  simp [String.length_append, h1, h2] at hlen

theorem len_ne_two_base (b e : String) : b ++ " (2)." ++ e ≠ b ++ "." ++ e := by
  intro hcontra
  have hlen := congrArg String.length hcontra
  have h1 : (" (2)." : String).length = 5 := rfl
  have h2 : ("." : String).length = 1 := rfl
  simp [String.length_append, h1, h2] at hlen

theorem ne_two_one (b e : String) : b ++ " (2)." ++ e ≠ b ++ " (1)." ++ e := by
  intro hcontra
  have hd := congrArg String.data hcontra
  simp only [String.data_append] at hd
  have h1 := List.append_cancel_right hd
  have h2 := List.append_cancel_left h1
  exact absurd h2 (by decide)

/-- C6 counterexample: the claim quantifies over every base path and filename
and asserts the resolver never produces a doubled suffix.  When the requested
filename itself already ends in `" (1)"` before the extension and that exact
file exists, the first collision step (which never strips, because `uq_num > 1`
fails) appends a second suffix, producing `foo (1) (1).ts`. -/
theorem resolve_disambiguation_counterexample :
    disambiguate ["foo (1).ts"] "foo (1).ts" = "foo (1) (1).ts" := by decide

/-- C6 (amended): for every collision-free stem and extension without dots or
slashes, resolving `<b>.<e>` against an existing `<b>.<e>` yields `<b> (1).<e>`,
and against existing `<b>.<e>` and `<b> (1).<e>` yields `<b> (2).<e>` — the
previous `" (1)"` suffix is stripped before `" (2)"` is appended, so iterated
collisions never chain suffixes; only a requested filename that itself already
ends in a `" (n)"` suffix can produce a doubled suffix. -/
theorem resolve_disambiguation_spec (b e : String) (hb : plainName b = true)
    (he : plainName e = true) (hne : b.data ≠ []) :
    disambiguate [b ++ "." ++ e] (b ++ "." ++ e) = b ++ " (1)." ++ e ∧
    disambiguate [b ++ "." ++ e, b ++ " (1)." ++ e] (b ++ "." ++ e) = b ++ " (2)." ++ e := by
  have hsp0 : splitext (b ++ "." ++ e) = (b, "." ++ e) := splitext_plain b e hb he hne
  have hb1 : plainName (b ++ " (1)") = true := plainName_append hb (by decide)
  have hb1ne : (b ++ " (1)").data ≠ [] := by
    simp [String.data_append]
  have hsp1 : splitext (b ++ " (1)." ++ e) = (b ++ " (1)", "." ++ e) := by
    rw [append_regroup_one]
    exact splitext_plain (b ++ " (1)") e hb1 he hb1ne
  constructor
  · rw [disambiguate, disambiguateAux_mem _ _ _ (by exact List.mem_singleton.mpr rfl)]
    simp only [hsp0, natSuffix_one, Nat.zero_add]
    rw [if_neg (by simp)]
    rw [append_splice_one]
    exact disambiguateAux_not_mem _ 0 1
      (by simp only [List.mem_singleton]; exact len_ne_one_base b e)
  · rw [disambiguate, disambiguateAux_mem _ _ _ (by simp)]
    simp only [hsp0, natSuffix_one, Nat.zero_add]
    rw [if_neg (by simp)]
    rw [append_splice_one]
    simp only [List.length_cons, List.length_nil]
    rw [disambiguateAux_mem _ _ _ (by simp)]
    have h11 : (1 + 1 : Nat) = 2 := rfl
    rw [h11]
    simp only [hsp1, natSuffix_one, natSuffix_two]
    rw [if_pos ⟨by omega, pyEndsWith_append b " (1)"⟩]
    rw [pyRemoveSuffix_append, append_splice_two]
    exact disambiguateAux_not_mem _ 0 2
      (by
        intro hmem
        rcases List.mem_cons.mp hmem with h | hmem2
        · exact len_ne_two_base b e h
        · rcases List.mem_cons.mp hmem2 with h | hmem3
          · exact ne_two_one b e h
          · simp at hmem3)

/-- Witness for C6 (amended) at `foo.ts`. -/
theorem resolve_disambiguation_spec_witness :
    disambiguate ["foo.ts"] "foo.ts" = "foo (1).ts" ∧
    disambiguate ["foo.ts", "foo (1).ts"] "foo.ts" = "foo (2).ts" :=
  resolve_disambiguation_spec "foo" "ts" (by decide) (by decide) (by decide)

/-! ## Association-list lemmas -/
theorem dictGet_eq_none_iff {α : Type} (l : List (String × α)) (k : String) :
    dictGet l k = none ↔ k ∉ dictKeys l := by
  induction l with
  | nil => simp [dictGet, dictKeys]
  | cons kv rest ih =>
    obtain ⟨k2, v⟩ := kv
    simp only [dictKeys, List.map_cons, List.mem_cons] at ih ⊢
    by_cases h : k2 = k
    · subst h
      simp [dictGet]
    · simp only [dictGet, if_neg h, ih]
      constructor
      · intro hk hor
        rcases hor with h2 | h2
        · exact h h2.symm
        · exact hk h2
      · intro hk h2
        exact hk (Or.inr h2)

theorem dictKeys_dictSet_of_none {α : Type} {l : List (String × α)} {k : String} (v : α)
    (h : dictGet l k = none) : dictKeys (dictSet l k v) = dictKeys l ++ [k] := by
  induction l with
  | nil => simp [dictSet, dictKeys]
  | cons kv rest ih =>
    obtain ⟨k2, v2⟩ := kv
    simp only [dictGet] at h
    by_cases hk : k2 = k
    · simp [hk] at h
    · simp only [dictKeys] at ih
      simp only [dictSet, if_neg hk, dictKeys, List.map_cons]
      rw [ih (by simpa [hk] using h)]
      simp

theorem dictGet_dictSet_self {α : Type} (l : List (String × α)) (k : String) (v : α) :
    dictGet (dictSet l k v) k = some v := by
  induction l with
  | nil => simp [dictSet, dictGet]
  | cons kv rest ih =>
    obtain ⟨k2, v2⟩ := kv
    by_cases hk : k2 = k
    · simp [dictSet, dictGet, hk]
    · simp [dictSet, dictGet, hk, ih]

theorem dictErase_dictSet_of_none {α : Type} {l : List (String × α)} {k : String} (v : α)
    (h : dictGet l k = none) : dictErase (dictSet l k v) k = l := by
  induction l with
  | nil => simp [dictSet, dictErase]
  | cons kv rest ih =>
    obtain ⟨k2, v2⟩ := kv
    simp only [dictGet] at h
    by_cases hk : k2 = k
    · simp [hk] at h
    · simp only [dictSet, if_neg hk, dictErase, if_neg hk]
      rw [ih (by simpa [hk] using h)]

theorem dictKeys_dictErase {α : Type} (l : List (String × α)) (k : String) :
    dictKeys (dictErase l k) = (dictKeys l).erase k := by
  induction l with
  | nil => simp [dictErase, dictKeys]
  | cons kv rest ih =>
    obtain ⟨k2, v2⟩ := kv
    by_cases hk : k2 = k
    · subst hk
      simp [dictErase, dictKeys, List.erase_cons]
    · simp only [dictKeys] at ih
      simp [dictErase, hk, dictKeys, List.erase_cons, ih]

theorem dictKeys_dictModify {α : Type} (l : List (String × α)) (k : String) (f : α → α) :
    dictKeys (dictModify l k f) = dictKeys l := by
  induction l with
  | nil => rfl
  | cons kv rest ih =>
    obtain ⟨k2, v2⟩ := kv
    by_cases hk : k2 = k
    · simp [dictModify, hk, dictKeys]
    · simp only [dictKeys] at ih
      simp [dictModify, hk, dictKeys, ih]

theorem mem_dictSet {α : Type} {kv : String × α} {l : List (String × α)} {k : String} {v : α}
    (h : kv ∈ dictSet l k v) : kv ∈ l ∨ kv.2 = v := by
  induction l with
  | nil => simp [dictSet] at h; simp [h]
  | cons kv2 rest ih =>
    obtain ⟨k2, v2⟩ := kv2
    by_cases hk : k2 = k
    · simp only [dictSet, if_pos hk] at h
      rcases List.mem_cons.mp h with rfl | h
      · simp
      · exact Or.inl (List.mem_cons.mpr (Or.inr h))
    · simp only [dictSet, if_neg hk] at h
      rcases List.mem_cons.mp h with rfl | h
      · exact Or.inl (List.mem_cons.mpr (Or.inl rfl))
      · rcases ih h with h2 | h2
        · exact Or.inl (List.mem_cons.mpr (Or.inr h2))
        · exact Or.inr h2

theorem mem_dictErase {α : Type} {kv : String × α} {l : List (String × α)} {k : String}
    (h : kv ∈ dictErase l k) : kv ∈ l := by
  induction l with
  | nil => simp [dictErase] at h
  | cons kv2 rest ih =>
    obtain ⟨k2, v2⟩ := kv2
    by_cases hk : k2 = k
    · simp only [dictErase, if_pos hk] at h
      exact List.mem_cons.mpr (Or.inr h)
    · simp only [dictErase, if_neg hk] at h
      rcases List.mem_cons.mp h with rfl | h
      · exact List.mem_cons.mpr (Or.inl rfl)
      · exact List.mem_cons.mpr (Or.inr (ih h))

theorem mem_dictModify_const {α : Type} {kv : String × α} {l : List (String × α)} {k : String}
    {v : α} (h : kv ∈ dictModify l k (fun _ => v)) : kv ∈ l ∨ kv.2 = v := by
  induction l with
  | nil => simp [dictModify] at h
  | cons kv2 rest ih =>
    obtain ⟨k2, v2⟩ := kv2
    by_cases hk : k2 = k
    · simp only [dictModify, if_pos hk] at h
      rcases List.mem_cons.mp h with rfl | h
      · simp
      · exact Or.inl (List.mem_cons.mpr (Or.inr h))
    · simp only [dictModify, if_neg hk] at h
      rcases List.mem_cons.mp h with rfl | h
      · exact Or.inl (List.mem_cons.mpr (Or.inl rfl))
      · rcases ih h with h2 | h2
        · exact Or.inl (List.mem_cons.mpr (Or.inr h2))
        · exact Or.inr h2

theorem dictKeys_map_const {α β : Type} (l : List (String × α)) (c : β) :
    dictKeys (l.map (fun kv => (kv.1, c))) = dictKeys l := by
  simp [dictKeys, List.map_map]

/-! ## Frame and preservation lemmas -/
theorem download_vod_state (cfg : Config) (s : RecState) (env : VodEnv) (url quality : String)
    {s2 : RecState} {evs : List Event}
    (h : download_vod cfg s env url quality = Except.ok (s2, evs)) : s2 = s := by
  unfold download_vod at h
  repeat' (first | split at h | simp only [] at h)
  all_goals first
    | exact Except.noConfusion h
    | (simp only [Except.ok.injEq, Prod.mk.injEq] at h
       exact h.1.symm)

theorem on_streamlink_exit_state (cfg : Config) (s : RecState) (fileSize : Option Nat)
    (videoTitle url : String) (return_code : Int) {s2 : RecState} {evs : List Event}
    (h : on_streamlink_exit cfg s fileSize videoTitle url return_code = Except.ok (s2, evs)) :
    s2 = s := by
  unfold on_streamlink_exit at h
  repeat' (first | split at h | simp only [] at h)
  all_goals first
    | exact Except.noConfusion h
    | (simp only [Except.ok.injEq, Prod.mk.injEq] at h
       exact h.1.symm)

theorem loop_channel_keys (cfg : Config) (s : RecState) (cid : String) (env : ChannelEnv)
    (ms : Bool) {s2 : RecState} {evs : List Event} {ms2 : Bool}
    (h : loop_channel cfg s cid env ms = Except.ok (s2, evs, ms2)) :
    s2.record_dict = s.record_dict ∧
    dictKeys s2.recorder_processes = dictKeys s.recorder_processes ∧
    dictKeys s2.record_dict = dictKeys s.record_dict := by
  unfold loop_channel at h
  repeat' (first | split at h | simp only [] at h)
  all_goals first
    | exact Except.noConfusion h
    | (simp only [Except.ok.injEq, Prod.mk.injEq] at h
       obtain ⟨h1, -, -⟩ := h
       subst h1
       exact ⟨rfl, by simp [dictKeys_dictModify], rfl⟩)

theorem loop_channels_keys (cfg : Config) (env : String → ChannelEnv) :
    ∀ (ks : List String) (s : RecState) (ms : Bool) {s2 : RecState} {evs : List Event}
      {ms2 : Bool}, loop_channels cfg env ks s ms = Except.ok (s2, evs, ms2) →
      s2.record_dict = s.record_dict ∧
      dictKeys s2.recorder_processes = dictKeys s.recorder_processes := by
  intro ks
  induction ks with
  | nil =>
    intro s ms s2 evs ms2 h
    simp only [loop_channels, Except.ok.injEq, Prod.mk.injEq] at h
    obtain ⟨h1, -, -⟩ := h
    subst h1
    exact ⟨rfl, rfl⟩
  | cons cid rest ih =>
    intro s ms s2 evs ms2 h
    simp only [loop_channels] at h
    split at h
    · exact Except.noConfusion h
    · rename_i res1 s3 evs3 ms3 heq1
      split at h
      · exact Except.noConfusion h
      · rename_i res2 s4 evs4 ms4 heq2
        simp only [Except.ok.injEq, Prod.mk.injEq] at h
        obtain ⟨h1, -, -⟩ := h
        subst h1
        obtain ⟨ha1, ha2, -⟩ := loop_channel_keys cfg s cid (env cid) ms heq1
        obtain ⟨hb1, hb2⟩ := ih s3 ms3 heq2
        exact ⟨hb1.trans ha1, hb2.trans ha2⟩

theorem loop_cycle_keys (cfg : Config) (s : RecState) (env : String → ChannelEnv)
    {s2 : RecState} {evs : List Event}
    (h : loop_cycle cfg s env = Except.ok (s2, evs)) :
    s2.record_dict = s.record_dict ∧
    dictKeys s2.recorder_processes = dictKeys s.recorder_processes := by
  unfold loop_cycle at h
  split at h
  · exact Except.noConfusion h
  · rename_i res s3 evs3 ms3 heq
    simp only [Except.ok.injEq, Prod.mk.injEq] at h
    obtain ⟨h1, -⟩ := h
    subst h1
    exact loop_channels_keys cfg env (dictKeys s.record_dict) s false heq

/-! ## Result characterizations of the registry mutations -/
theorem add_streamer_result (cfg : Config) (s : RecState) (env : AddEnv) (channel : String)
    (add_by_name : Bool) :
    (add_streamer cfg s env channel add_by_name).1 = s ∨
    ∃ cid data, dictGet s.record_dict cid = none ∧ env.channelInfo = some data ∧
      (add_streamer cfg s env channel add_by_name).1 =
        { s with record_dict := dictSet s.record_dict cid data,
                 recorder_processes := dictSet s.recorder_processes cid addProcess } := by
  unfold add_streamer
  simp only []
  split
  · exact Or.inl rfl
  · rename_i hnot
    split
    · exact Or.inl rfl
    · rename_i data heq
      exact Or.inr ⟨_, data, Option.not_isSome_iff_eq_none.mp hnot, heq, rfl⟩

theorem remove_streamer_result (s : RecState) (cid : String) {s2 : RecState} {evs : List Event}
    (h : remove_streamer s cid = Except.ok (s2, evs)) :
    s2 = s ∨
    ∃ entry, dictGet s.recorder_processes cid = some entry ∧
      s2 = { record_dict := dictErase s.record_dict cid,
             recorder_processes := dictErase s.recorder_processes cid,
             recording_count :=
               match entry.recorder with
               | some _ => s.recording_count - 1
               | none => s.recording_count } := by
  unfold remove_streamer at h
  split at h
  · simp only [Except.ok.injEq, Prod.mk.injEq] at h
    exact Or.inl h.1.symm
  · simp only [] at h
    split at h
    · exact Except.noConfusion h
    · rename_i entry heqe
      simp only [Except.ok.injEq, Prod.mk.injEq] at h
      exact Or.inr ⟨entry, heqe, h.1.symm⟩

/-- The two maps always hold exactly the same keys, in the same order. -/
theorem registry_sync {cfg : Config} {s : RecState} (h : Reachable cfg s) :
    dictKeys s.record_dict = dictKeys s.recorder_processes := by
  induction h with
  | boot ids infos dirExists =>
    simp only [init_state]
    exact (dictKeys_map_const _ _).symm
  | add s env channel add_by_name hs ih =>
    rcases add_streamer_result cfg s env channel add_by_name with h1 | ⟨cid, data, hget, -, h1⟩
    · rw [h1]; exact ih
    · rw [h1]
      simp only []
      have hget2 : dictGet s.recorder_processes cid = none :=
        (dictGet_eq_none_iff _ _).mpr (ih ▸ (dictGet_eq_none_iff _ _).mp hget)
      rw [dictKeys_dictSet_of_none _ hget, dictKeys_dictSet_of_none _ hget2, ih]
  | remove s s2 cid evs hs h ih =>
    rcases remove_streamer_result s cid h with rfl | ⟨entry, -, rfl⟩
    · exact ih
    · simp only []
      rw [dictKeys_dictErase, dictKeys_dictErase, ih]
  | cycle s s2 env evs hs h ih =>
    obtain ⟨h1, h2⟩ := loop_cycle_keys cfg s env h
    rw [h1, h2]
    exact ih
  | dl s s2 env url q evs hs h ih =>
    rw [download_vod_state cfg s env url q h]
    exact ih

/-! ## The recorder/path pairing invariant -/
theorem loop_channel_path_inv (cfg : Config) (s : RecState) (cid : String) (env : ChannelEnv)
    (ms : Bool) {s2 : RecState} {evs : List Event} {ms2 : Bool}
    (h : loop_channel cfg s cid env ms = Except.ok (s2, evs, ms2))
    (hs : ∀ kv ∈ s.recorder_processes, kv.2.path.isSome = kv.2.recorder.isSome) :
    ∀ kv ∈ s2.recorder_processes, kv.2.path.isSome = kv.2.recorder.isSome := by
  unfold loop_channel at h
  repeat' (first | split at h | simp only [] at h)
  all_goals first
    | exact Except.noConfusion h
    | (simp only [Except.ok.injEq, Prod.mk.injEq] at h
       obtain ⟨h1, -, -⟩ := h
       subst h1
       first
         | exact hs
         | (intro kv hkv
            rcases mem_dictModify_const hkv with h2 | h2
            exacts [hs kv h2, by simp [h2]]))

theorem loop_channels_path_inv (cfg : Config) (env : String → ChannelEnv) :
    ∀ (ks : List String) (s : RecState) (ms : Bool) {s2 : RecState} {evs : List Event}
      {ms2 : Bool}, loop_channels cfg env ks s ms = Except.ok (s2, evs, ms2) →
      (∀ kv ∈ s.recorder_processes, kv.2.path.isSome = kv.2.recorder.isSome) →
      ∀ kv ∈ s2.recorder_processes, kv.2.path.isSome = kv.2.recorder.isSome := by
  intro ks
  induction ks with
  | nil =>
    intro s ms s2 evs ms2 h hs
    simp only [loop_channels, Except.ok.injEq, Prod.mk.injEq] at h
    obtain ⟨h1, -, -⟩ := h
    subst h1
    exact hs
  | cons cid rest ih =>
    intro s ms s2 evs ms2 h hs
    simp only [loop_channels] at h
    split at h
    · exact Except.noConfusion h
    · rename_i res1 s3 evs3 ms3 heq1
      split at h
      · exact Except.noConfusion h
      · rename_i res2 s4 evs4 ms4 heq2
        simp only [Except.ok.injEq, Prod.mk.injEq] at h
        obtain ⟨h1, -, -⟩ := h
        subst h1
        exact ih s3 ms3 heq2 (loop_channel_path_inv cfg s cid (env cid) ms heq1 hs)

theorem loop_cycle_path_inv (cfg : Config) (s : RecState) (env : String → ChannelEnv)
    {s2 : RecState} {evs : List Event}
    (h : loop_cycle cfg s env = Except.ok (s2, evs))
    (hs : ∀ kv ∈ s.recorder_processes, kv.2.path.isSome = kv.2.recorder.isSome) :
    ∀ kv ∈ s2.recorder_processes, kv.2.path.isSome = kv.2.recorder.isSome := by
  unfold loop_cycle at h
  split at h
  · exact Except.noConfusion h
  · rename_i res s3 evs3 ms3 heq
    simp only [Except.ok.injEq, Prod.mk.injEq] at h
    obtain ⟨h1, -⟩ := h
    subst h1
    exact loop_channels_path_inv cfg env (dictKeys s.record_dict) s false heq hs

/-- In every reachable state, a process entry's recording path is set exactly
when its recorder handle is set. -/
theorem proc_entry_inv {cfg : Config} {s : RecState} (h : Reachable cfg s) :
    ∀ kv ∈ s.recorder_processes, kv.2.path.isSome = kv.2.recorder.isSome := by
  induction h with
  | boot ids infos dirExists =>
    intro kv hkv
    simp only [init_state] at hkv
    obtain ⟨a, -, ha⟩ := List.mem_map.mp hkv
    rw [← ha]
    rfl
  | add s env channel add_by_name hs ih =>
    rcases add_streamer_result cfg s env channel add_by_name with h1 | ⟨cid, data, -, -, h1⟩
    · rw [h1]; exact ih
    · rw [h1]
      intro kv hkv
      rcases mem_dictSet hkv with h2 | h2
      · exact ih kv h2
      · rw [h2]
        rfl
  | remove s s2 cid evs hs h ih =>
    rcases remove_streamer_result s cid h with rfl | ⟨entry, -, rfl⟩
    · exact ih
    · intro kv hkv
      exact ih kv (mem_dictErase hkv)
  | cycle s s2 env evs hs h ih =>
    exact loop_cycle_path_inv cfg s env h ih
  | dl s s2 env url q evs hs h ih =>
    rw [download_vod_state cfg s env url q h]
    exact ih

/-! ## Claim C2 -/
/-- C2: in every reachable registry state the channel map and the process map
have exactly the same key sequence (hence the same key set); and an `add` of a
fresh identifier followed by a `remove` of the same identifier restores the
pre-add key set of both maps. -/
theorem registry_lockstep_spec (cfg : Config) (s : RecState) (env : AddEnv) (cid : String)
    (hreach : Reachable cfg s) :
    dictKeys s.record_dict = dictKeys s.recorder_processes ∧
    (cid ∉ dictKeys s.record_dict →
      ∀ s2 evs2,
        remove_streamer (add_streamer cfg s env cid false).1 cid = Except.ok (s2, evs2) →
        dictKeys s2.record_dict = dictKeys s.record_dict ∧
        dictKeys s2.recorder_processes = dictKeys s.recorder_processes) := by
  refine ⟨registry_sync hreach, ?_⟩
  intro hfresh s2 evs2 hrem
  have hget : dictGet s.record_dict cid = none := (dictGet_eq_none_iff _ _).mpr hfresh
  have hgetp : dictGet s.recorder_processes cid = none := by
    rw [dictGet_eq_none_iff]
    intro hm
    exact hfresh (by rw [registry_sync hreach]; exact hm)
  have hres : resolveId env cid false = cid := rfl
  cases hinfo : env.channelInfo with
  | none =>
    have hadd : (add_streamer cfg s env cid false).1 = s := by
      unfold add_streamer
      simp [hres, hget, hinfo]
    rw [hadd] at hrem
    have hremval : remove_streamer s cid =
        Except.ok (s, sendCommandMessage "제거 실패"
          ("채널 ID `" ++ cid ++ "`는 추가된 채널이 아닙니다.\n',list' 명령어로 추가된 채널 ID를 확인하세요.")) := by
      simp [remove_streamer, hget]
    rw [hremval] at hrem
    simp only [Except.ok.injEq, Prod.mk.injEq] at hrem
    rw [← hrem.1]
    exact ⟨rfl, rfl⟩
  | some data =>
    have hadd : (add_streamer cfg s env cid false).1 =
        { s with record_dict := dictSet s.record_dict cid data,
                 recorder_processes := dictSet s.recorder_processes cid addProcess } := by
      unfold add_streamer
      simp [hres, hget, hinfo]
    rw [hadd] at hrem
    unfold remove_streamer at hrem
    simp only [dictGet_dictSet_self] at hrem
    simp only [dictErase_dictSet_of_none data hget,
               dictErase_dictSet_of_none addProcess hgetp] at hrem
    simp only [addProcess] at hrem
    simp only [Except.ok.injEq, Prod.mk.injEq] at hrem
    rw [← hrem.1]
    exact ⟨rfl, rfl⟩

/-! ## Claim C1 -/
/-- C1 (amended): removing a tracked channel terminates and waits for a running
capture subprocess, removes both the channel entry and the process entry,
persists the remaining identifier list, and reports the removed entry in the
reply — but, contrary to the original claim, it does not touch the companion
chat-capture subprocess: the emitted events carry no signal for the chat
handle.  Removing an untracked identifier sends a NotTracked-style reply and
changes nothing. -/
theorem remove_streamer_spec (s : RecState) (cid : String) :
    (∀ info entry, dictGet s.record_dict cid = some info →
      dictGet s.recorder_processes cid = some entry →
      remove_streamer s cid = Except.ok
        ({ record_dict := dictErase s.record_dict cid,
           recorder_processes := dictErase s.recorder_processes cid,
           recording_count :=
             match entry.recorder with
             | some _ => s.recording_count - 1
             | none => s.recording_count },
         (match entry.recorder with
          | some h => [Event.terminate h, Event.waitExit h]
          | none => []) ++
         [Event.saveList (dictKeys (dictErase s.record_dict cid))] ++
         sendCommandMessage "제거 성공"
           ("채널 `" ++ info.channelName ++ " (" ++ cid ++ ")`을/를 녹화 목록에서 제거했습니다."))) ∧
    (dictGet s.record_dict cid = none →
      remove_streamer s cid = Except.ok
        (s, sendCommandMessage "제거 실패"
          ("채널 ID `" ++ cid ++ "`는 추가된 채널이 아닙니다.\n',list' 명령어로 추가된 채널 ID를 확인하세요."))) := by
  constructor
  · intro info entry h1 h2
    simp [remove_streamer, h1, h2]
  · intro h
    simp [remove_streamer, h]

/-- Witness for C1 (amended) at concrete states. -/
theorem remove_streamer_spec_witness :
    remove_streamer chatState "c1" =
      Except.ok ({ record_dict := [], recorder_processes := [], recording_count := 0 },
        chatRemoveEvents) ∧
    remove_streamer chatState "nope" =
      Except.ok (chatState,
        [Event.message Chan.command "제거 실패"
          "채널 ID `nope`는 추가된 채널이 아닙니다.\n',list' 명령어로 추가된 채널 ID를 확인하세요."]) := by
  constructor
  · have h := (remove_streamer_spec chatState "c1").1 sampleChannel
      { recorder := some 5, path := some "/rec/alice/a.ts", chat_recorder := some (some 7) }
      (by decide) (by decide)
    rw [h]
    decide
  · have h := (remove_streamer_spec chatState "nope").2 (by decide)
    rw [h]
    decide

/-- C1 counterexample: with the chat-capture subprocess (handle 7) running,
removal emits no terminate and no wait for it — the claim's "forcibly
terminates ... any running companion chat-capture subprocess" is false. -/
theorem remove_streamer_counterexample :
    remove_streamer chatState "c1" =
      Except.ok ({ record_dict := [], recorder_processes := [], recording_count := 0 },
        chatRemoveEvents) ∧
    chatRemoveEvents.contains (Event.terminate 7) = false ∧
    chatRemoveEvents.contains (Event.waitExit 7) = false := by decide

/-! ## Claim C3 -/
/-- C3: in every reachable state — i.e. after any sequence of startup load,
add, remove, poll cycles (recording start and reap) and downloads — every
process entry has its recording path set exactly when its recorder handle is
set. -/
theorem process_entry_pairing_spec (cfg : Config) (s : RecState) (h : Reachable cfg s) :
    ∀ kv ∈ s.recorder_processes, kv.2.path.isSome = kv.2.recorder.isSome :=
  proc_entry_inv h

/-- Witness for C3 at the boot state of one channel. -/
theorem process_entry_pairing_spec_witness :
    (("chan1", initProcess) : String × RecorderProcess).2.path.isSome =
      ("chan1", initProcess).2.recorder.isSome :=
  process_entry_pairing_spec sampleConfig sampleBootState
    (Reachable.boot ["chan1"] (fun _ => sampleChannel) (fun _ => true))
    ("chan1", initProcess) (by decide)

/-! ## Claim C9 -/
/-- C9: the on-demand VOD download and its completion callback leave the
channel registry and the process table (and the recording counter) exactly as
they were. -/
theorem download_vod_frame_spec (cfg : Config) (s : RecState) (env : VodEnv)
    (url quality : String) (fileSize : Option Nat) (videoTitle url2 : String)
    (rc : Int) (s2 s3 : RecState) (evs evs2 : List Event)
    (h1 : download_vod cfg s env url quality = Except.ok (s2, evs))
    (h2 : on_streamlink_exit cfg s2 fileSize videoTitle url2 rc = Except.ok (s3, evs2)) :
    s2.record_dict = s.record_dict ∧ s2.recorder_processes = s.recorder_processes ∧
    s2.recording_count = s.recording_count ∧
    s3.record_dict = s.record_dict ∧ s3.recorder_processes = s.recorder_processes ∧
    s3.recording_count = s.recording_count := by
  have e1 := download_vod_state cfg s env url quality h1
  have e2 := on_streamlink_exit_state cfg s2 fileSize videoTitle url2 rc h2
  rw [e2, e1]
  exact ⟨rfl, rfl, rfl, rfl, rfl, rfl⟩

/-- Witness for C9 at a concrete download and callback run. -/
theorem download_vod_frame_spec_witness :
    sampleBootState.record_dict = sampleBootState.record_dict ∧
    sampleBootState.recorder_processes = sampleBootState.recorder_processes ∧
    sampleBootState.recording_count = sampleBootState.recording_count ∧
    sampleBootState.record_dict = sampleBootState.record_dict ∧
    sampleBootState.recorder_processes = sampleBootState.recorder_processes ∧
    sampleBootState.recording_count = sampleBootState.recording_count :=
  download_vod_frame_spec sampleConfig sampleBootState sampleVodEnv "url" "" (some 10) "t"
    "url" 1 sampleBootState sampleBootState
    [Event.message Chan.command "다운로드 실패"
      "`url`의 정보를 가져오는 데 실패했습니다.\n올바른 URL인지 확인하세요."]
    [Event.message Chan.notify "다운로드 실패" "`url` 의 다운로드 중 오류가 발생했습니다."]
    (by decide) (by decide)

/-! ## Claim C5 -/
/-- C5 (code bug): `check_live` never reports failure as `None` — it returns
`False` on a non-2xx response and lets a raised request exception escape — so
the loop's `is_streaming is None` failure-notification branch is dead.  On an
HTTP error the channel is treated as offline and on a raised exception the
per-channel handler only logs: in both concrete runs below the cycle completes
(proceeding past the channel) with no failure notification at all, only the
heartbeat. -/
theorem check_live_failure_silent :
    (∀ r : LiveHttp,
      (match check_live r with
       | Except.ok (p, _) => p.isSome
       | Except.error _ => true) = true) ∧
    loop_cycle sampleConfig sampleBootState (fun _ => httpErrEnv) =
      Except.ok (sampleBootState, [Event.alive]) ∧
    loop_cycle sampleConfig sampleBootState (fun _ => raisesEnv) =
      Except.ok (sampleBootState, [Event.alive]) := by
  refine ⟨?_, by decide, by decide⟩
  intro r
  cases r with
  | raises => rfl
  | resp a b c => cases a <;> rfl

/-! ## Claim C4 -/
/-- C4 (code bug): a process entry created by the `add` command lacks the
`chat_recorder` key (contradicting the code's own `RecorderProcess` TypedDict).
With chat recording disabled, the key is never added, and the first reap of a
finished recording of such a channel crashes with a `KeyError`
(`Except.error`) at the loop's `['chat_recorder']` access. -/
theorem chat_recorder_keyerror :
    (add_streamer sampleConfig emptyRecState sampleAddEnv "c2" false).1 = addedState ∧
    loop_cycle sampleConfig addedState (fun _ => liveEnv) =
      Except.ok (recordingNoChatKeyState,
        [Event.spawnRecorder 5,
         Event.embed Chan.notify "녹화 시작됨" "채널 `alice`의 녹화를 시작합니다."]) ∧
    loop_cycle sampleConfig recordingNoChatKeyState (fun _ => reapEnv) =
      Except.error () := by decide

/-- C7 counterexample: storage root missing, fallback disabled — the cycle
emits the storage-error notification over the notify channel and still sends
the heartbeat, because `get_file_path` does not set `message_sent`. -/
theorem heartbeat_counterexample :
    loop_cycle cfgNoFallback sampleBootState (fun _ => storageFailEnv) =
      Except.ok (sampleBootState,
        [Event.message Chan.notify "오류"
           "저장 디렉토리가 접근 불가능하므로 녹화를 시작할 수 없습니다.\n저장 디렉토리가 온라인이고 마운트됐는지 확인하세요.",
         Event.alive]) := by decide

theorem get_file_path_flagfree (cfg : Config) (env : PathEnv) (u f : String) (v : Bool) :
    (get_file_path cfg env u f v).2.any countsForHeartbeat = false ∧
    (get_file_path cfg env u f v).2.any (fun e => e == Event.alive) = false := by
  unfold get_file_path sendNotifyMessage
  repeat' (first | split | simp only [])
  all_goals constructor <;> simp [countsForHeartbeat]

/-- Witness for C2: boot state with one channel, add then remove of `"c"`. -/
theorem registry_lockstep_spec_witness :
    dictKeys sampleBootState.record_dict = dictKeys sampleBootState.recorder_processes ∧
    dictKeys sampleBootState.record_dict = dictKeys sampleBootState.record_dict ∧
    dictKeys sampleBootState.recorder_processes = dictKeys sampleBootState.recorder_processes := by
  have h := registry_lockstep_spec sampleConfig sampleBootState sampleAddEnv "c"
    (Reachable.boot ["chan1"] (fun _ => sampleChannel) (fun _ => true))
  refine ⟨h.1, ?_⟩
  exact h.2 (by decide) sampleBootState
    [Event.saveList ["chan1"],
     Event.message Chan.command "제거 성공" "채널 `alice (c)`을/를 녹화 목록에서 제거했습니다."]
    (by decide)

theorem loop_channel_flag (cfg : Config) (s : RecState) (cid : String) (env : ChannelEnv)
    (ms : Bool) {s2 : RecState} {evs : List Event} {ms2 : Bool}
    (hsock : cfg.hasSocket = true)
    (h : loop_channel cfg s cid env ms = Except.ok (s2, evs, ms2)) :
    ms2 = (ms || evs.any countsForHeartbeat) ∧
    evs.any (fun e => e == Event.alive) = false := by
  unfold loop_channel at h
  repeat' (first | split at h | simp only [] at h)
  all_goals first
    | exact Except.noConfusion h
    | (simp only [Except.ok.injEq, Prod.mk.injEq] at h
       obtain ⟨-, h2, h3⟩ := h
       subst h2
       subst h3
       constructor <;>
         simp [hsock, sendNotifyMessage, sendNotifyEmbed, countsForHeartbeat,
               get_file_path_flagfree, List.any_append])

theorem loop_channels_flag (cfg : Config) (env : String → ChannelEnv)
    (hsock : cfg.hasSocket = true) :
    ∀ (ks : List String) (s : RecState) (ms : Bool) {s2 : RecState} {evs : List Event}
      {ms2 : Bool}, loop_channels cfg env ks s ms = Except.ok (s2, evs, ms2) →
      ms2 = (ms || evs.any countsForHeartbeat) ∧
      evs.any (fun e => e == Event.alive) = false := by
  intro ks
  induction ks with
  | nil =>
    intro s ms s2 evs ms2 h
    simp only [loop_channels, Except.ok.injEq, Prod.mk.injEq] at h
    obtain ⟨-, h2, h3⟩ := h
    subst h2
    subst h3
    simp
  | cons cid rest ih =>
    intro s ms s2 evs ms2 h
    simp only [loop_channels] at h
    split at h
    · exact Except.noConfusion h
    · rename_i res1 s3 evs3 ms3 heq1
      split at h
      · exact Except.noConfusion h
      · rename_i res2 s4 evs4 ms4 heq2
        simp only [Except.ok.injEq, Prod.mk.injEq] at h
        obtain ⟨-, h2, h3⟩ := h
        subst h2
        subst h3
        obtain ⟨ha1, ha2⟩ := loop_channel_flag cfg s cid (env cid) ms hsock heq1
        obtain ⟨hb1, hb2⟩ := ih s3 ms3 heq2
        constructor
        · rw [hb1, ha1]
          simp [List.any_append, Bool.or_assoc]
        · simp [List.any_append, ha2, hb2]

/-- C7 (amended): when the notify socket is connected, a cycle that completes
sends the heartbeat exactly when none of the flag-setting notifications
(recording ended, file not found, channel-check failure, recording started)
was emitted; storage warnings and errors emitted while resolving a path do
not suppress the heartbeat. -/
theorem heartbeat_spec (cfg : Config) (s : RecState) (env : String → ChannelEnv)
    (s2 : RecState) (evs : List Event) (hsock : cfg.hasSocket = true)
    (h : loop_cycle cfg s env = Except.ok (s2, evs)) :
    evs.any (fun e => e == Event.alive) = !(evs.any countsForHeartbeat) := by
  unfold loop_cycle at h
  split at h
  · exact Except.noConfusion h
  · rename_i res s3 evs3 ms3 heq
    simp only [Except.ok.injEq, Prod.mk.injEq] at h
    obtain ⟨-, h2⟩ := h
    subst h2
    obtain ⟨hflag, halive⟩ := loop_channels_flag cfg env hsock (dictKeys s.record_dict) s false heq
    rw [Bool.false_or] at hflag
    cases hany : evs3.any countsForHeartbeat with
    | true =>
      rw [hany] at hflag
      subst hflag
      simp [List.any_append, halive, hany, countsForHeartbeat]
    | false =>
      rw [hany] at hflag
      subst hflag
      simp [List.any_append, halive, hany, sendAlive, hsock, countsForHeartbeat]

/-- Witness for C7 (amended): an idle cycle emits exactly the heartbeat. -/
theorem heartbeat_spec_witness :
    ([Event.alive].any (fun e => e == Event.alive)) =
      !([Event.alive].any countsForHeartbeat) :=
  heartbeat_spec sampleConfig sampleBootState (fun _ => offlineEnv) sampleBootState
    [Event.alive] (by decide) (by decide)

end MCR
